import Mathlib

/-!
Shallow embedding of the `GET /partner-dashboard/offers` handler of
`src/index.js` (the richer variant of the afrofiliate partner dashboard
backend, which the specification follows).

JSON values are modelled by `JVal`, JS objects by ordered association
lists (`Obj`).  The upstream provider is modelled as a pair of functions
from request URLs to fetch outcomes; the handler is a pure function of
the query parameters, the upstream, and the wall clock reading used for
the `_metadata.timestamp` field.
-/

namespace Afrofiliate

/-- A JSON / JavaScript value, as far as the handler inspects one. -/
inductive JVal where
  | jnull : JVal
  | jbool : Bool → JVal
  | jnum : Int → JVal
  | jstr : String → JVal
  deriving DecidableEq, Repr

/-- A JS object: an ordered mapping of string keys to values. -/
abbrev Obj := List (String × JVal)

/-- JavaScript truthiness of a value (`null`, `false`, `0` and `""` are falsy). -/
def JVal.truthy : JVal → Bool
  | .jnull => false
  | .jbool b => b
  | .jnum n => n != 0
  | .jstr s => s != ""

/-- Property access `o[k]`: the value at the first matching key, if any
(`none` models the JS result `undefined`). -/
def getField (o : Obj) (k : String) : Option JVal :=
  (o.find? (fun p => p.1 = k)).map (fun p => p.2)

/-- Whether the object has the key `k` at all. -/
def hasField (o : Obj) (k : String) : Bool :=
  o.any (fun p => p.1 = k)

/-- Setting a key as JS object spread-with-override does: overwrite in place
when the key exists, otherwise append the new pair at the end. -/
def setField (o : Obj) (k : String) (v : JVal) : Obj :=
  if hasField o k then o.map (fun p => if p.1 = k then (k, v) else p)
  else o ++ [(k, v)]

/-- JS `x || d` applied to a property lookup: the looked-up value when it is
present and truthy, the default otherwise (a missing property is `undefined`,
which is falsy). -/
def jsOr (v : Option JVal) (dflt : JVal) : JVal :=
  match v with
  | some w => if w.truthy then w else dflt
  | none => dflt

/-- The merge from src/index.js lines 122-127:
`{...offer, default_payout: detailData.default_payout || 'N/A',
currency: detailData.currency || ''}`. -/
def mergeDetail (offer detailData : Obj) : Obj :=
  setField
    (setField offer "default_payout"
      (jsOr (getField detailData "default_payout") (.jstr "N/A")))
    "currency" (jsOr (getField detailData "currency") (.jstr ""))

/-- Outcome of one detail fetch, as the handler's inner try/catch sees it:
`httpOk body` is a success status with `body` the parsed JSON;
`httpErr` is a non-success status (`!detailRes.ok`);
`fetchErr` is a thrown error (timeout, network error, or malformed body). -/
inductive DetailResult where
  | httpOk : Obj → DetailResult
  | httpErr : DetailResult
  | fetchErr : DetailResult
  deriving DecidableEq, Repr

/-- Per-offer enrichment, src/index.js lines 110-131: on a successful detail
fetch the merge is applied; a non-ok status or a thrown error returns the
offer unmodified. -/
def enrichOffer (offer : Obj) (r : DetailResult) : Obj :=
  match r with
  | .httpOk detailData => mergeDetail offer detailData
  | .httpErr => offer
  | .fetchErr => offer

/-- Outcome of the list fetch: `ok offersField` is a success status whose
parsed body has `offersField` as its `offers` field (`none` when absent, so
that `data.offers || []` is `offersField.getD []`); `httpErr status text` is
a non-success status whose body text is `text`; `fetchErr` is a thrown error
reaching the outer catch. -/
inductive ListResult where
  | ok : Option (List Obj) → ListResult
  | httpErr : Nat → String → ListResult
  | fetchErr : ListResult
  deriving DecidableEq, Repr

/-- The response bodies the handler can produce, one constructor per return
site, carrying the data that varies between requests. -/
inductive RespBody where
  | operational : RespBody
  | invalidAffiliate : String → RespBody
  | invalidType : RespBody
  | badGateway : String → RespBody
  | success : List Obj → Nat → String → RespBody
  | internalError : RespBody
  deriving DecidableEq, Repr

/-- The literal `message` string of each JSON body in src/index.js. -/
def RespBody.message : RespBody → String
  | .operational => "Partner dashboard backend is operational"
  | .invalidAffiliate _ => "Valid affiliate_id is required"
  | .invalidType => "Type must be either \x22top\x22 or \x22latest\x22 if provided"
  | .badGateway _ => "Failed to fetch offers from Everflow"
  | .success _ _ _ => ""
  | .internalError => "An unexpected error occurred"

/-- The `details.received` field of the invalid-affiliate_id body, if the
body has one. -/
def RespBody.received : RespBody → Option String
  | .invalidAffiliate r => some r
  | _ => none

/-- An HTTP response: status code and JSON body. -/
structure HttpResp where
  status : Nat
  body : RespBody
  deriving DecidableEq, Repr

/-- The deterministic upstream provider: a function from list-fetch URL to
list outcome, and from detail-fetch URL to detail outcome. -/
structure Upstream where
  fetchList : String → ListResult
  fetchDetail : String → DetailResult

/-- The opening brace character, which the validator rejects inside
affiliate ids. -/
def braceChar : Char := Char.ofNat 123

/-- The list URL before sort parameters, src/index.js line 76. -/
def listBaseUrl (aid : String) : String :=
  "https://api.eflow.team/v1/networks/offers?affiliate_id=" ++ aid ++
    "&limit=10&status=active&visibility=public"

/-- The list URL after the sort-parameter appends of lines 78-82
(`type === 'top'` and `type === 'latest'` are strict string comparisons). -/
def buildUrl (aid : String) (type : Option String) : String :=
  if type = some "top" then
    listBaseUrl aid ++ "&sort_by=payout&sort_direction=desc"
  else if type = some "latest" then
    listBaseUrl aid ++ "&sort_by=created_at&sort_direction=desc"
  else
    listBaseUrl aid

/-- JS string interpolation of a possibly-missing property
(template literals call `String()`; a missing property prints `undefined`). -/
def interpolate : Option JVal → String
  | none => "undefined"
  | some .jnull => "null"
  | some (.jbool b) => cond b "true" "false"
  | some (.jnum n) => toString n
  | some (.jstr s) => s

/-- The detail URL of src/index.js line 108, keyed by the offer's
`network_offer_id` and the affiliate id. -/
def detailUrl (aid : String) (offer : Obj) : String :=
  "https://api.eflow.team/v1/networks/offers/" ++
    interpolate (getField offer "network_offer_id") ++ "?affiliate_id=" ++ aid

/-- The enrichment fan-out, src/index.js lines 106-133: `Promise.all` over
`offers.map` resolves to the per-offer results in the positions of their
offers, so it is a `List.map`. -/
def enrichAll (aid : String) (up : Upstream) (offers : List Obj) : List Obj :=
  offers.map (fun offer => enrichOffer offer (up.fetchDetail (detailUrl aid offer)))

/-- The type validation test of src/index.js line 69:
`type && !['top', 'latest'].includes(type)` (an absent or empty `type` is
falsy, so it passes). -/
def typeCheckFails (type : Option String) : Bool :=
  match type with
  | none => false
  | some t => t ≠ "" && !(t = "top" || t = "latest")

/-- The `GET /partner-dashboard/offers` handler, src/index.js lines 45-155,
as a pure function of the two query parameters (absent = `none`), the
upstream, and the clock reading `now` used for `_metadata.timestamp`. -/
def handler (affiliate_id type : Option String) (up : Upstream) (now : String) :
    HttpResp :=
  match affiliate_id with
  | none => ⟨200, .operational⟩
  | some aid =>
    if aid = "" then ⟨200, .operational⟩
    else if aid.data.contains braceChar then ⟨400, .invalidAffiliate aid⟩
    else if typeCheckFails type then ⟨400, .invalidType⟩
    else
      match up.fetchList (buildUrl aid type) with
      | .ok offersField =>
        let offers := offersField.getD []
        let enriched := enrichAll aid up offers
        ⟨200, .success enriched enriched.length now⟩
      | .httpErr _status errorText => ⟨502, .badGateway errorText⟩
      | .fetchErr => ⟨500, .internalError⟩

/-- `s` has `sub` as a contiguous substring. -/
def containsSub (s sub : String) : Prop :=
  ∃ p q : String, s = p ++ sub ++ q

/-! ### Association-list lemmas about `getField` / `setField` -/

lemma comp_replace_key (k k' : String) (v : JVal) :
    ((fun p : String × JVal => decide (p.1 = k')) ∘
        fun p => if p.1 = k then (k, v) else p)
      = fun p : String × JVal => decide (p.1 = k') := by
  funext p
  by_cases hp : p.1 = k
  · simp [hp]
  · simp [hp]

lemma getField_map_replace_self (o : Obj) (k : String) (v : JVal)
    (h : hasField o k = true) :
    getField (o.map (fun p => if p.1 = k then (k, v) else p)) k = some v := by
  unfold getField
  rw [List.find?_map, comp_replace_key]
  have hs : (o.find? (fun p => decide (p.1 = k))).isSome = true := by
    rw [List.find?_isSome]
    simpa [hasField, List.any_eq_true] using h
  cases hfind : o.find? (fun p => decide (p.1 = k)) with
  | none => rw [hfind] at hs; simp at hs
  | some x =>
    have hx : x.1 = k := by simpa using List.find?_some hfind
    simp [hx]

lemma getField_map_replace_other (o : Obj) (k k' : String) (v : JVal)
    (hne : k' ≠ k) :
    getField (o.map (fun p => if p.1 = k then (k, v) else p)) k'
      = getField o k' := by
  unfold getField
  rw [List.find?_map, comp_replace_key]
  cases hfind : o.find? (fun p => decide (p.1 = k')) with
  | none => simp
  | some x =>
    have hx : x.1 = k' := by simpa using List.find?_some hfind
    have hxk : ¬ (x.1 = k) := by rw [hx]; exact hne
    simp [hxk]

lemma getField_append_single (o : Obj) (k k' : String) (v : JVal) :
    getField (o ++ [(k, v)]) k'
      = ((getField o k').or (if k = k' then some v else none)) := by
  unfold getField
  rw [List.find?_append]
  by_cases hk : k = k'
  · cases hfind : o.find? (fun p => decide (p.1 = k')) <;>
      simp [hfind, List.find?, hk]
  · cases hfind : o.find? (fun p => decide (p.1 = k')) <;>
      simp [hfind, List.find?, hk]

lemma getField_setField_self (o : Obj) (k : String) (v : JVal) :
    getField (setField o k v) k = some v := by
  unfold setField
  by_cases h : hasField o k = true
  · simpa [h] using getField_map_replace_self o k v h
  · rw [if_neg h, getField_append_single]
    have hnone : getField o k = none := by
      unfold getField
      cases hfind : o.find? (fun p => decide (p.1 = k)) with
      | none => rfl
      | some x =>
        exfalso
        apply h
        have hx : x.1 = k := by simpa using List.find?_some hfind
        have hmem := List.mem_of_find?_eq_some hfind
        unfold hasField
        rw [List.any_eq_true]
        exact ⟨x, hmem, by simpa using hx⟩
    simp [hnone]

lemma getField_setField_other (o : Obj) (k k' : String) (v : JVal)
    (hne : k' ≠ k) :
    getField (setField o k v) k' = getField o k' := by
  unfold setField
  by_cases h : hasField o k = true
  · simpa [h] using getField_map_replace_other o k k' v hne
  · rw [if_neg h, getField_append_single]
    have : ¬ (k = k') := fun hc => hne hc.symm
    cases hfind : getField o k' <;> simp [this]

lemma hasField_setField (o : Obj) (k k' : String) (v : JVal) :
    hasField (setField o k v) k' = true ↔
      (hasField o k' = true ∨ k' = k) := by
  unfold setField
  by_cases h : hasField o k = true
  · rw [if_pos h]
    unfold hasField
    rw [List.any_map, comp_replace_key]
    constructor
    · exact fun hh => Or.inl hh
    · rintro (hh | rfl)
      · exact hh
      · exact h
  · rw [if_neg h]
    unfold hasField
    rw [List.any_append]
    simp only [List.any_cons, List.any_nil, Bool.or_false, Bool.or_eq_true,
      decide_eq_true_eq]
    exact Iff.intro (fun hh => hh.imp id Eq.symm) (fun hh => hh.imp id Eq.symm)

/-! ### Field-level description of the merge -/

lemma getField_mergeDetail_payout (offer d : Obj) :
    getField (mergeDetail offer d) "default_payout"
      = some (jsOr (getField d "default_payout") (.jstr "N/A")) := by
  unfold mergeDetail
  rw [getField_setField_other _ _ _ _ (by decide), getField_setField_self]

lemma getField_mergeDetail_currency (offer d : Obj) :
    getField (mergeDetail offer d) "currency"
      = some (jsOr (getField d "currency") (.jstr "")) := by
  unfold mergeDetail
  rw [getField_setField_self]

lemma getField_mergeDetail_other (offer d : Obj) (k : String)
    (h1 : k ≠ "default_payout") (h2 : k ≠ "currency") :
    getField (mergeDetail offer d) k = getField offer k := by
  unfold mergeDetail
  rw [getField_setField_other _ _ _ _ h2, getField_setField_other _ _ _ _ h1]

lemma hasField_mergeDetail (offer d : Obj) (k : String) :
    hasField (mergeDetail offer d) k = true ↔
      (hasField offer k = true ∨ k = "default_payout" ∨ k = "currency") := by
  unfold mergeDetail
  rw [hasField_setField, hasField_setField]
  tauto

/-! ### Concrete fixtures used by witnesses and counterexamples -/

/-- An upstream that answers every URL with the same fixed outcomes. -/
def mkUpstream (l : ListResult) (d : DetailResult) : Upstream :=
  ⟨fun _ => l, fun _ => d⟩

def offerA : Obj := [("network_offer_id", .jstr "1"), ("name", .jstr "Offer A")]

def offerB : Obj := [("network_offer_id", .jstr "2"), ("name", .jstr "Offer B")]

def detailA : Obj := [("default_payout", .jstr "12.50"), ("currency", .jstr "USD")]

/-- An upstream whose list call returns `offerA` and `offerB`, whose detail
call succeeds for `offerA` and throws for `offerB`. -/
def mixedUp : Upstream :=
  ⟨fun _ => .ok (some [offerA, offerB]),
   fun u => if u = detailUrl "af123" offerA then .httpOk detailA else .fetchErr⟩

/-- An upstream whose list call throws the per-offer detail error for every
detail URL, while the list call itself succeeds with a single offer. -/
def fetchErrUp : Upstream := mkUpstream (.ok (some [offerA])) .fetchErr

/-- An upstream whose list call fails with HTTP 500 and a raw body text. -/
def up500 : Upstream := mkUpstream (.httpErr 500 "upstream raw body") .fetchErr

/-- The same upstream as `up500` except for the failing status code. -/
def up503 : Upstream := mkUpstream (.httpErr 503 "upstream raw body") .fetchErr

/-- An upstream whose list call succeeds with an empty offer list. -/
def upEmptyOk : Upstream := mkUpstream (.ok (some [])) .fetchErr

/-! ### Handler-level helper lemmas -/

lemma handler_success (aid : String) (type : Option String) (up : Upstream)
    (now : String) (offers : List Obj)
    (haid : aid ≠ "") (hbrace : aid.data.contains braceChar = false)
    (htype : typeCheckFails type = false)
    (hlist : up.fetchList (buildUrl aid type) = .ok (some offers)) :
    handler (some aid) type up now
      = ⟨200, .success (enrichAll aid up offers) offers.length now⟩ := by
  dsimp only [handler]
  rw [if_neg haid, if_neg (by rw [hbrace]; decide), if_neg (by rw [htype]; decide),
    hlist]
  simp [enrichAll]

lemma enrichAll_getElem (aid : String) (up : Upstream) (offers : List Obj)
    (i : Nat) (offer : Obj) (h : offers[i]? = some offer) :
    (enrichAll aid up offers)[i]?
      = some (enrichOffer offer (up.fetchDetail (detailUrl aid offer))) := by
  unfold enrichAll
  rw [List.getElem?_map, h]
  rfl

lemma containsSub_append (s t sub : String) (h : containsSub s sub) :
    containsSub (s ++ t) sub := by
  obtain ⟨p, q, hpq⟩ := h
  exact ⟨p, q ++ t, by rw [hpq]; simp [String.append_assoc]⟩

/-- Erase the `_metadata.timestamp` field of a response body, leaving
everything else intact. -/
def RespBody.stripTimestamp : RespBody → RespBody
  | .success offers count _ => .success offers count ""
  | b => b

/-- Erase the `_metadata.timestamp` field of a response. -/
def HttpResp.stripTimestamp (r : HttpResp) : HttpResp :=
  ⟨r.status, r.body.stripTimestamp⟩

/-! ### The claims -/

/-- C1: for a successful upstream list response with N offers, the handler
returns HTTP 200 whose offers array has length N; the result at each
position i is derived from the input offer at position i (association by
position, never by completion order): the merge is applied exactly when that
offer's detail lookup succeeded, and a failed lookup (non-ok status, thrown
error) leaves the offer identical to its input form; no detail failure
changes the 200 status. -/
theorem C1_enrichment_fanout (aid : String) (type : Option String)
    (up : Upstream) (now : String) (offers : List Obj)
    (haid : aid ≠ "") (hbrace : aid.data.contains braceChar = false)
    (htype : typeCheckFails type = false)
    (hlist : up.fetchList (buildUrl aid type) = .ok (some offers)) :
    handler (some aid) type up now
      = ⟨200, .success (enrichAll aid up offers) offers.length now⟩ ∧
    (enrichAll aid up offers).length = offers.length ∧
    ∀ (i : Nat) (offer : Obj), offers[i]? = some offer →
      (enrichAll aid up offers)[i]?
        = some (match up.fetchDetail (detailUrl aid offer) with
                | .httpOk d => mergeDetail offer d
                | .httpErr => offer
                | .fetchErr => offer) := by
  refine ⟨handler_success aid type up now offers haid hbrace htype hlist, ?_, ?_⟩
  · simp [enrichAll]
  · intro i offer h
    rw [enrichAll_getElem aid up offers i offer h]
    cases up.fetchDetail (detailUrl aid offer) <;> rfl

/-- Witness for C1 at a concrete request with one successful and one failing
detail lookup. -/
theorem C1_enrichment_fanout_witness :
    handler (some "af123") none mixedUp "ts"
      = ⟨200, .success (enrichAll "af123" mixedUp [offerA, offerB]) 2 "ts"⟩ ∧
    (enrichAll "af123" mixedUp [offerA, offerB])[1]? = some offerB := by
  have h := C1_enrichment_fanout "af123" none mixedUp "ts" [offerA, offerB]
    (by decide) (by decide) (by decide) (by decide)
  refine ⟨h.1, ?_⟩
  have h2 := h.2.2 1 offerB (by decide)
  rw [h2]
  decide

/-- C2 as frozen is false: the default "N/A" is applied not only when the
detail body's `default_payout` field is missing, but also when it is present
with a JS-falsy value; here the field is present and equal to `""`, yet the
enriched offer carries `"N/A"`. -/
theorem C2_counterexample :
    getField [("default_payout", JVal.jstr "")] "default_payout"
        = some (.jstr "") ∧
    getField (enrichOffer [] (.httpOk [("default_payout", .jstr "")]))
        "default_payout" = some (.jstr "N/A") := by
  decide

/-- C2 amended: on a successful detail lookup the enriched offer keeps every
field of the source offer other than `default_payout`/`currency` unchanged,
its key set is the source's plus exactly those two keys, and
`default_payout` (resp. `currency`) equals the detail body's field, with the
default "N/A" (resp. "") applied if and only if that field is missing or has
a JS-falsy value. -/
theorem C2_merge_amended (offer detailData : Obj) :
    getField (enrichOffer offer (.httpOk detailData)) "default_payout"
      = some (match getField detailData "default_payout" with
              | some w => if w.truthy then w else .jstr "N/A"
              | none => .jstr "N/A") ∧
    getField (enrichOffer offer (.httpOk detailData)) "currency"
      = some (match getField detailData "currency" with
              | some w => if w.truthy then w else .jstr ""
              | none => .jstr "") ∧
    (∀ k, k ≠ "default_payout" → k ≠ "currency" →
      getField (enrichOffer offer (.httpOk detailData)) k = getField offer k) ∧
    (∀ k, hasField (enrichOffer offer (.httpOk detailData)) k = true ↔
      (hasField offer k = true ∨ k = "default_payout" ∨ k = "currency")) := by
  refine ⟨?_, ?_, ?_, ?_⟩
  · exact getField_mergeDetail_payout offer detailData
  · exact getField_mergeDetail_currency offer detailData
  · exact fun k h1 h2 => getField_mergeDetail_other offer detailData k h1 h2
  · exact fun k => hasField_mergeDetail offer detailData k

/-- Witness for C2 amended at a concrete offer and detail body. -/
theorem C2_merge_amended_witness :
    getField (enrichOffer [("name", JVal.jstr "A")] (.httpOk detailA)) "name"
      = some (.jstr "A") :=
  (C2_merge_amended [("name", JVal.jstr "A")] detailA).2.2.1 "name"
    (by decide) (by decide)

/-- C3 as frozen is false: when the detail lookup throws, the catch branch
returns the offer unmodified, so an offer with no `default_payout`/`currency`
fields of its own appears in the output without them — not with
`"N/A"`/`""` as the claim states (the 200 part does hold). -/
theorem C3_counterexample :
    handler (some "af123") none fetchErrUp "ts"
        = ⟨200, .success [offerA] 1 "ts"⟩ ∧
    getField offerA "default_payout" ≠ some (.jstr "N/A") ∧
    getField offerA "currency" ≠ some (.jstr "") := by
  decide

/-- C3 amended: if the detail lookup for one offer throws a network error,
that offer appears in the output at its original position unmodified (no
`default_payout`/`currency` override), and the overall response is still
HTTP 200. -/
theorem C3_network_error_amended (aid : String) (type : Option String)
    (up : Upstream) (now : String) (offers : List Obj) (i : Nat) (offer : Obj)
    (haid : aid ≠ "") (hbrace : aid.data.contains braceChar = false)
    (htype : typeCheckFails type = false)
    (hlist : up.fetchList (buildUrl aid type) = .ok (some offers))
    (hoff : offers[i]? = some offer)
    (hdet : up.fetchDetail (detailUrl aid offer) = .fetchErr) :
    (handler (some aid) type up now).status = 200 ∧
    (enrichAll aid up offers)[i]? = some offer ∧
    (handler (some aid) type up now).body
      = .success (enrichAll aid up offers) offers.length now := by
  have hmain := handler_success aid type up now offers haid hbrace htype hlist
  refine ⟨by rw [hmain], ?_, by rw [hmain]⟩
  rw [enrichAll_getElem aid up offers i offer hoff, hdet]
  rfl

/-- Witness for C3 amended at a concrete request whose only detail lookup
throws. -/
theorem C3_network_error_amended_witness :
    (handler (some "af123") none fetchErrUp "ts").status = 200 ∧
    (enrichAll "af123" fetchErrUp [offerA])[0]? = some offerA := by
  have h := C3_network_error_amended "af123" none fetchErrUp "ts" [offerA] 0
    offerA (by decide) (by decide) (by decide) (by decide) (by decide)
    (by decide)
  exact ⟨h.1, h.2.1⟩

/-- C4 as frozen is false in one respect: the 502 body does not carry the
upstream status — upstream failures with status 500 and with status 503 and
the same raw body produce byte-identical responses (status 502, fixed error
and message, raw body in `details`). -/
theorem C4_counterexample :
    handler (some "af123") none up500 "ts"
        = ⟨502, .badGateway "upstream raw body"⟩ ∧
    handler (some "af123") none up500 "ts"
        = handler (some "af123") none up503 "ts" := by
  decide

/-- C4 amended: a non-success upstream list status aborts the request
without retrying and yields HTTP 502 with the raw upstream body embedded in
the `details` field (the upstream status code itself is not echoed in the
body); the response does not depend on any detail lookup. -/
theorem C4_bad_gateway_amended (aid : String) (type : Option String)
    (up : Upstream) (now : String) (status : Nat) (text : String)
    (haid : aid ≠ "") (hbrace : aid.data.contains braceChar = false)
    (htype : typeCheckFails type = false)
    (hlist : up.fetchList (buildUrl aid type) = .httpErr status text) :
    handler (some aid) type up now = ⟨502, .badGateway text⟩ := by
  dsimp only [handler]
  rw [if_neg haid, if_neg (by rw [hbrace]; decide), if_neg (by rw [htype]; decide),
    hlist]

/-- Witness for C4 amended at the concrete upstream failing with 500. -/
theorem C4_bad_gateway_amended_witness :
    handler (some "af123") (some "top") up500 "ts"
      = ⟨502, .badGateway "upstream raw body"⟩ :=
  C4_bad_gateway_amended "af123" (some "top") up500 "ts" 500 "upstream raw body"
    (by decide) (by decide) (by decide) (by decide)

/-- C5: a request without `affiliate_id` short-circuits into the status
probe: HTTP 200 with the static operational body, for every `type` and every
upstream (the constant result shows no upstream call can influence it). -/
theorem C5_status_probe (type : Option String) (up : Upstream) (now : String) :
    handler none type up now = ⟨200, .operational⟩ := rfl

/-- C6 as frozen is false: the value `type = ""` is present and lies outside
{absent, "top", "latest"}, yet the JS truthiness guard skips the check and
the request succeeds with HTTP 200 instead of 400. -/
theorem C6_counterexample :
    handler (some "af123") (some "") upEmptyOk "ts"
        = ⟨200, .success [] 0 "ts"⟩ ∧
    (handler (some "af123") (some "") upEmptyOk "ts").status ≠ 400 := by
  decide

/-- C6 amended: every present, non-empty `type` value other than "top" and
"latest" is rejected with HTTP 400 and the invalid-type message, once the
`affiliate_id` presence and brace checks pass; an empty-string `type` is
treated like an absent one by the falsiness guard. -/
theorem C6_invalid_type_amended (aid t : String) (up : Upstream) (now : String)
    (haid : aid ≠ "") (hbrace : aid.data.contains braceChar = false)
    (ht0 : t ≠ "") (ht1 : t ≠ "top") (ht2 : t ≠ "latest") :
    handler (some aid) (some t) up now = ⟨400, .invalidType⟩ ∧
    (handler (some aid) (some t) up now).body.message
      = "Type must be either \x22top\x22 or \x22latest\x22 if provided" := by
  have hmain : handler (some aid) (some t) up now = ⟨400, .invalidType⟩ := by
    dsimp only [handler]
    rw [if_neg haid, if_neg (by rw [hbrace]; decide),
      if_pos (by simp [typeCheckFails, ht0, ht1, ht2])]
  exact ⟨hmain, by rw [hmain]; rfl⟩

/-- Witness for C6 amended at a concrete out-of-range type value. -/
theorem C6_invalid_type_amended_witness :
    handler (some "af123") (some "weird") upEmptyOk "ts"
      = ⟨400, .invalidType⟩ :=
  (C6_invalid_type_amended "af123" "weird" upEmptyOk "ts" (by decide)
    (by decide) (by decide) (by decide) (by decide)).1

/-- C7: every present `affiliate_id` containing the brace character is
rejected with HTTP 400, the invalid-affiliate_id message, and a body whose
`details.received` equals the supplied value; the constant result over all
upstreams shows no upstream call is made. -/
theorem C7_invalid_affiliate (aid : String) (type : Option String)
    (up : Upstream) (now : String)
    (h : aid.data.contains braceChar = true) :
    handler (some aid) type up now = ⟨400, .invalidAffiliate aid⟩ ∧
    (handler (some aid) type up now).body.received = some aid ∧
    (handler (some aid) type up now).body.message
      = "Valid affiliate_id is required" := by
  have hne : aid ≠ "" := by
    intro hc
    subst hc
    exact absurd h (by decide)
  have hmain : handler (some aid) type up now = ⟨400, .invalidAffiliate aid⟩ := by
    dsimp only [handler]
    rw [if_neg hne, if_pos h]
  exact ⟨hmain, by rw [hmain]; rfl, by rw [hmain]; rfl⟩

/-- Witness for C7 at a concrete brace-containing affiliate id. -/
theorem C7_invalid_affiliate_witness :
    handler (some "af\x7b12\x7d") none mixedUp "ts"
      = ⟨400, .invalidAffiliate "af\x7b12\x7d"⟩ :=
  (C7_invalid_affiliate "af\x7b12\x7d" none mixedUp "ts" (by decide)).1

/-- C8: the list URL always contains the fixed parameters and the supplied
affiliate id; `type=top` appends the payout-descending sort clause,
`type=latest` the created_at-descending one, and an absent `type` appends
nothing (the URL is exactly the base URL). -/
theorem C8_list_url (aid : String) :
    (∀ type, containsSub (buildUrl aid type) "limit=10"
      ∧ containsSub (buildUrl aid type) "status=active"
      ∧ containsSub (buildUrl aid type) "visibility=public"
      ∧ containsSub (buildUrl aid type) ("affiliate_id=" ++ aid)) ∧
    buildUrl aid (some "top")
      = listBaseUrl aid ++ "&sort_by=payout&sort_direction=desc" ∧
    buildUrl aid (some "latest")
      = listBaseUrl aid ++ "&sort_by=created_at&sort_direction=desc" ∧
    buildUrl aid none = listBaseUrl aid := by
  have hbase : containsSub (listBaseUrl aid) "limit=10"
      ∧ containsSub (listBaseUrl aid) "status=active"
      ∧ containsSub (listBaseUrl aid) "visibility=public"
      ∧ containsSub (listBaseUrl aid) ("affiliate_id=" ++ aid) := by
    refine ⟨⟨"https://api.eflow.team/v1/networks/offers?affiliate_id=" ++ aid
        ++ "&", "&status=active&visibility=public", ?_⟩,
      ⟨"https://api.eflow.team/v1/networks/offers?affiliate_id=" ++ aid
        ++ "&limit=10&", "&visibility=public", ?_⟩,
      ⟨"https://api.eflow.team/v1/networks/offers?affiliate_id=" ++ aid
        ++ "&limit=10&status=active&", "", ?_⟩,
      ⟨"https://api.eflow.team/v1/networks/offers?",
        "&limit=10&status=active&visibility=public", ?_⟩⟩
    · have h : ("&limit=10&status=active&visibility=public" : String)
          = "&" ++ ("limit=10" ++ "&status=active&visibility=public") := by
        decide
      unfold listBaseUrl
      simp only [String.append_assoc]
      rw [h]
    · have h : ("&limit=10&status=active&visibility=public" : String)
          = "&limit=10&" ++ ("status=active" ++ "&visibility=public") := by
        decide
      unfold listBaseUrl
      simp only [String.append_assoc]
      rw [h]
    · have h : ("&limit=10&status=active&visibility=public" : String)
          = "&limit=10&status=active&" ++ ("visibility=public" ++ "") := by
        decide
      unfold listBaseUrl
      simp only [String.append_assoc]
      rw [h]
    · have h : ("https://api.eflow.team/v1/networks/offers?affiliate_id="
            : String)
          = "https://api.eflow.team/v1/networks/offers?" ++ "affiliate_id=" := by
        decide
      unfold listBaseUrl
      rw [h]
      simp only [String.append_assoc]
  refine ⟨?_, ?_, ?_, ?_⟩
  · intro type
    unfold buildUrl
    by_cases h1 : type = some "top"
    · rw [if_pos h1]
      exact ⟨containsSub_append _ _ _ hbase.1,
        containsSub_append _ _ _ hbase.2.1,
        containsSub_append _ _ _ hbase.2.2.1,
        containsSub_append _ _ _ hbase.2.2.2⟩
    · rw [if_neg h1]
      by_cases h2 : type = some "latest"
      · rw [if_pos h2]
        exact ⟨containsSub_append _ _ _ hbase.1,
          containsSub_append _ _ _ hbase.2.1,
          containsSub_append _ _ _ hbase.2.2.1,
          containsSub_append _ _ _ hbase.2.2.2⟩
      · rw [if_neg h2]
        exact hbase
  · unfold buildUrl
    rw [if_pos rfl]
  · unfold buildUrl
    rw [if_neg (by decide), if_pos rfl]
  · unfold buildUrl
    rw [if_neg (by decide), if_neg (by decide)]

/-- C9 as frozen is false: the success envelope embeds the wall clock in
`_metadata.timestamp`, so two executions of the same valid request against
the same unchanged upstream, performed at different instants, produce
different bodies. -/
theorem C9_counterexample :
    handler (some "af123") none upEmptyOk "2024-01-01T00:00:00Z"
      ≠ handler (some "af123") none upEmptyOk "2024-01-02T00:00:00Z" := by
  decide

/-- C9 amended: against an unchanged deterministic upstream the handler is a
pure function of the request and the clock, and the clock influences nothing
but the `_metadata.timestamp` field: stripping that field, any two
executions of the same request are structurally identical. -/
theorem C9_idempotent_amended (affiliate_id type : Option String)
    (up : Upstream) (now1 now2 : String) :
    (handler affiliate_id type up now1).stripTimestamp
      = (handler affiliate_id type up now2).stripTimestamp := by
  cases affiliate_id with
  | none => rfl
  | some aid =>
    dsimp only [handler]
    by_cases h1 : aid = ""
    · rw [if_pos h1, if_pos h1]
    · rw [if_neg h1, if_neg h1]
      by_cases h2 : aid.data.contains braceChar = true
      · rw [if_pos h2, if_pos h2]
      · rw [if_neg h2, if_neg h2]
        by_cases h3 : typeCheckFails type = true
        · rw [if_pos h3, if_pos h3]
        · rw [if_neg h3, if_neg h3]
          cases up.fetchList (buildUrl aid type) <;> rfl

/-- C10: an affiliate_id supplied as the empty string is falsy in JS, so the
handler takes the status-probe branch and answers HTTP 200 with the
operational body for every `type` and every upstream — the empty id never
reaches validation or the upstream call. -/
theorem C10_empty_affiliate_probe (type : Option String) (up : Upstream)
    (now : String) :
    handler (some "") type up now = ⟨200, .operational⟩ := rfl

end Afrofiliate
